import Mathlib

set_option maxHeartbeats 1000000

namespace KloudiousAuth

/-- A registered user record `{ name, email, password }` (`src/types/auth.ts`). -/
structure User where
  name : String
  email : String
  password : String
deriving DecidableEq, Repr

/-- Index of the first occurrence of a character in a character list:
the embedding of TS `String.prototype.indexOf`, with `none` for TS `-1`. -/
def charIdx (c : Char) : List Char → Option Nat
  | [] => none
  | x :: xs => if x = c then some 0 else (charIdx c xs).map (· + 1)

/-- `validateEmail` from `src/utils/validation.ts`: reject the empty string,
reject when no `@` occurs, reject when the first `@` is the first character
or the last character; accept everything else. -/
def validateEmail (email : String) : Bool :=
  if email.data.isEmpty then false
  else
    match charIdx '@' email.data with
    | none => false
    | some atIndex =>
      if atIndex = 0 then false
      else if atIndex = email.data.length - 1 then false
      else true

/-- `validatePassword` from `src/utils/validation.ts`: reject the empty string
and any password shorter than 6 characters. -/
def validatePassword (password : String) : Bool :=
  if password.data.isEmpty then false
  else decide (6 ≤ password.data.length)

/-- JS `String.prototype.trim`: drop leading and trailing whitespace. -/
def trimChars (l : List Char) : List Char :=
  ((l.dropWhile Char.isWhitespace).reverse.dropWhile Char.isWhitespace).reverse

/-- `validateRequired` from `src/utils/validation.ts`: reject the empty string
and any string that trims to the empty string. -/
def validateRequired (value : String) : Bool :=
  if value.data.isEmpty then false
  else decide (0 < (trimChars value.data).length)

/-- The errors thrown by the auth operations in `src/contexts/AuthContext.tsx`
(the source throws string messages; each constructor names one message). -/
inductive AuthError where
  | nameRequired
  | emailRequired
  | passwordRequired
  | invalidEmailFormat
  | passwordTooShort
  | emailAlreadyRegistered
  | invalidCredentials
  | persistenceFailure
deriving DecidableEq, Repr

/-- The in-memory state owned by `AuthProvider`: `user` (current session),
`users` (registered users) and `isLoading`. -/
structure AuthState where
  user : Option User
  users : List User
  isLoading : Bool
deriving DecidableEq, Repr

/-- `signup` from `src/contexts/AuthContext.tsx`. `saveOk` is the outcome of
the `saveUsers` storage write (`true` = write succeeds). The result pairs
the thrown error (or success) with the in-memory state after the call. -/
def signup (st : AuthState) (name email password : String) (saveOk : Bool) :
    Except AuthError Unit × AuthState :=
  if validateRequired name = false then (Except.error AuthError.nameRequired, st)
  else if validateRequired email = false then (Except.error AuthError.emailRequired, st)
  else if validateRequired password = false then (Except.error AuthError.passwordRequired, st)
  else if validateEmail email = false then (Except.error AuthError.invalidEmailFormat, st)
  else if validatePassword password = false then (Except.error AuthError.passwordTooShort, st)
  else if (st.users.find? fun u => u.email == email).isSome then
    (Except.error AuthError.emailAlreadyRegistered, st)
  else
    let newUser : User := { name := name, email := email, password := password }
    let updatedUsers : List User := st.users ++ [newUser]
    let st' : AuthState := { st with users := updatedUsers }
    if saveOk then (Except.ok (), st')
    else (Except.error AuthError.persistenceFailure, st')

/-- `login` from `src/contexts/AuthContext.tsx`. `saveOk` is the outcome of
the `saveUser` session write. -/
def login (st : AuthState) (email password : String) (saveOk : Bool) :
    Except AuthError Unit × AuthState :=
  if validateRequired email = false then (Except.error AuthError.emailRequired, st)
  else if validateRequired password = false then (Except.error AuthError.passwordRequired, st)
  else if validateEmail email = false then (Except.error AuthError.invalidEmailFormat, st)
  else
    match st.users.find? fun u => u.email == email with
    | none => (Except.error AuthError.invalidCredentials, st)
    | some foundUser =>
      if foundUser.password ≠ password then (Except.error AuthError.invalidCredentials, st)
      else
        let st' : AuthState := { st with user := some foundUser }
        if saveOk then (Except.ok (), st')
        else (Except.error AuthError.persistenceFailure, st')

/-- `logout` from `src/contexts/AuthContext.tsx`. `removeOk` is the outcome of
the `removeUser` storage removal. -/
def logout (st : AuthState) (removeOk : Bool) : Except AuthError Unit × AuthState :=
  let st' : AuthState := { st with user := none }
  if removeOk then (Except.ok (), st')
  else (Except.error AuthError.persistenceFailure, st')

/-- Outcome of one storage read at startup: a stored value, no stored value,
or a read failure. -/
inductive ReadResult (α : Type) where
  | ok (a : α)
  | absent
  | failure
deriving DecidableEq

/-- `getUser` from `src/services/storage.ts`: returns the stored user, and
`null` both when nothing is stored and when the read fails. -/
def getUserR : ReadResult User → Option User
  | ReadResult.ok u => some u
  | ReadResult.absent => none
  | ReadResult.failure => none

/-- `getUsers` from `src/services/storage.ts`: returns the stored list, and
`[]` both when nothing is stored and when the read fails. -/
def getUsersR : ReadResult (List User) → List User
  | ReadResult.ok l => l
  | ReadResult.absent => []
  | ReadResult.failure => []

/-- `loadStoredAuth` from `src/contexts/AuthContext.tsx`: set the user only if
one was stored, always set the users list, always end with `isLoading = false`. -/
def loadStoredAuth (st : AuthState) (userRead : ReadResult User)
    (usersRead : ReadResult (List User)) : AuthState :=
  let storedUser := getUserR userRead
  let storedUsers := getUsersR usersRead
  let st1 : AuthState :=
    match storedUser with
    | some u => { st with user := some u }
    | none => st
  { st1 with users := storedUsers, isLoading := false }

/-- The provider state before `loadStoredAuth` runs:
`useState(null)`, `useState([])`, `useState(true)`. -/
def initialState : AuthState := { user := none, users := [], isLoading := true }

/-- A concrete ready state with one registered user, used by the concrete
instances below. -/
def annState : AuthState :=
  { user := none,
    users := [{ name := "Ann", email := "ann@x.com", password := "secret1" }],
    isLoading := false }

/-- One externally triggered auth operation, together with the outcome of its
storage write. -/
inductive Op where
  | sig (name email password : String) (saveOk : Bool)
  | log (email password : String) (saveOk : Bool)
  | out (removeOk : Bool)

/-- Apply one operation to the in-memory state, keeping only the state. -/
def applyOp (st : AuthState) : Op → AuthState
  | Op.sig n e p ok => (signup st n e p ok).2
  | Op.log e p ok => (login st e p ok).2
  | Op.out ok => (logout st ok).2

/-- Run a sequence of operations from a starting state. -/
def runOps (st : AuthState) (ops : List Op) : AuthState := ops.foldl applyOp st

/-- Modelled from the spec: the documented order of signup checks
(name required, email required, password required, email format,
password length, duplicate email), first failure wins. -/
def specFirstSignupError (st : AuthState) (name email password : String) :
    Option AuthError :=
  if validateRequired name = false then some AuthError.nameRequired
  else if validateRequired email = false then some AuthError.emailRequired
  else if validateRequired password = false then some AuthError.passwordRequired
  else if validateEmail email = false then some AuthError.invalidEmailFormat
  else if validatePassword password = false then some AuthError.passwordTooShort
  else if (st.users.find? fun u => u.email == email).isSome then
    some AuthError.emailAlreadyRegistered
  else none

/- Helper lemmas. -/

theorem charIdx_eq_none_of_not_mem (c : Char) (l : List Char) (h : c ∉ l) :
    charIdx c l = none := by
  induction l with
  | nil => rfl
  | cons x xs ih =>
    rw [charIdx, if_neg (fun hx => h (by rw [← hx]; exact List.mem_cons_self x xs)),
      ih (fun hc => h (List.mem_cons_of_mem x hc))]
    rfl

theorem login_users (st : AuthState) (e p : String) (ok : Bool) :
    (login st e p ok).2.users = st.users := by
  unfold login
  rcases hf : st.users.find? fun u => u.email == e with _ | u <;>
    split_ifs <;> simp [hf] <;> split_ifs <;> rfl

theorem logout_users (st : AuthState) (ok : Bool) :
    (logout st ok).2.users = st.users := by
  unfold logout
  split_ifs <;> rfl

theorem signup_users_cases (st : AuthState) (n e p : String) (ok : Bool) :
    (signup st n e p ok).2.users = st.users ∨
      ((st.users.find? fun u => u.email == e) = none ∧
        (signup st n e p ok).2.users =
          st.users ++ [{ name := n, email := e, password := p }]) := by
  unfold signup
  split_ifs with h1 h2 h3 h4 h5 h6 h7 <;>
    first
      | exact Or.inl rfl
      | exact Or.inr ⟨Option.not_isSome_iff_eq_none.mp h6, rfl⟩

theorem signup_step_nodup (st : AuthState) (n e p : String) (ok : Bool)
    (h : (st.users.map User.email).Nodup) :
    ((signup st n e p ok).2.users.map User.email).Nodup := by
  rcases signup_users_cases st n e p ok with hc | ⟨hfind, hc⟩
  · rw [hc]; exact h
  · rw [hc]
    have hnotmem : e ∉ st.users.map User.email := by
      intro hmem
      rcases List.mem_map.mp hmem with ⟨u, hu, heq⟩
      have := List.find?_eq_none.mp hfind u hu
      simp [heq] at this
    simp only [List.map_append, List.map_cons, List.map_nil, List.nodup_append]
    refine ⟨h, List.nodup_singleton _, ?_⟩
    intro x hx hx1
    simp at hx1
    exact hnotmem (hx1 ▸ hx)

theorem applyOp_nodup (st : AuthState) (op : Op)
    (h : (st.users.map User.email).Nodup) :
    ((applyOp st op).users.map User.email).Nodup := by
  cases op with
  | sig n e p ok => simpa [applyOp] using signup_step_nodup st n e p ok h
  | log e p ok => simpa [applyOp, login_users] using h
  | out ok => simpa [applyOp, logout_users] using h

/- Claim theorems. -/

/-- C4 counterexample: the string `"a@@"` ends in `'@'` yet `validateEmail`
accepts it, because the first `'@'` (index 1) is neither first nor last. -/
theorem validateEmail_last_at_counterexample :
    "a@@".data.getLast? = some '@' ∧ validateEmail "a@@" = true := by
  constructor
  · rfl
  · rfl

/-- C4 (amended): `validateEmail` rejects every string without `'@'`, every
string starting with `'@'`, and every string whose first `'@'` is its last
character. -/
theorem validateEmail_boundary (s : String) :
    ('@' ∉ s.data → validateEmail s = false) ∧
    (s.data.head? = some '@' → validateEmail s = false) ∧
    (charIdx '@' s.data = some (s.data.length - 1) → validateEmail s = false) := by
  refine ⟨?_, ?_, ?_⟩
  · intro h
    unfold validateEmail
    rw [charIdx_eq_none_of_not_mem '@' s.data h]
    split <;> rfl
  · intro h
    cases hl : s.data with
    | nil => rw [hl] at h; exact Option.noConfusion h
    | cons a t =>
      rw [hl] at h
      have ha : a = '@' := by simpa using h
      unfold validateEmail
      rw [hl, ha]
      simp [charIdx]
  · intro h
    unfold validateEmail
    rw [h]
    split
    · rfl
    · simp

/-- C4 witness: the amended boundary rules evaluated at concrete strings. -/
theorem validateEmail_boundary_witness :
    validateEmail "abc" = false ∧ validateEmail "@ab" = false ∧
      validateEmail "ab@" = false :=
  ⟨(validateEmail_boundary "abc").1 (by decide),
   (validateEmail_boundary "@ab").2.1 (by decide),
   (validateEmail_boundary "ab@").2.2 (by decide)⟩

/-- C7: signup never authenticates — for every input, state and storage
outcome, the session `user` after `signup` equals the one before. -/
theorem signup_preserves_currentUser (st : AuthState) (n e p : String)
    (ok : Bool) : (signup st n e p ok).2.user = st.user := by
  unfold signup
  split_ifs <;> rfl

/-- C3: the error returned by `signup` is the first failing check in the
documented order (name required, email required, password required, email
format, password length, duplicate email); when all checks pass the call
succeeds or fails only with the persistence error. -/
theorem signup_error_order (st : AuthState) (n e p : String) (ok : Bool) :
    (∀ err, specFirstSignupError st n e p = some err →
      (signup st n e p ok).1 = Except.error err) ∧
    (specFirstSignupError st n e p = none →
      (signup st n e p ok).1 =
        if ok then Except.ok () else Except.error AuthError.persistenceFailure) := by
  unfold signup specFirstSignupError
  split_ifs with h1 h2 h3 h4 h5 h6 h7 <;>
    refine ⟨fun err herr => ?_, fun hnone => ?_⟩ <;> simp_all

/-- C3 witness: the first failing check at concrete inputs (blank name wins;
fully valid input succeeds). -/
theorem signup_error_order_witness :
    (signup initialState "" "" "" true).1 = Except.error AuthError.nameRequired ∧
    (signup initialState "Ann" "ann@x.com" "secret1" true).1 = Except.ok () := by
  constructor
  · exact (signup_error_order initialState "" "" "" true).1 AuthError.nameRequired (by rfl)
  · have h := (signup_error_order initialState "Ann" "ann@x.com" "secret1" true).2 (by rfl)
    simpa using h

/-- C1: round-trip — with validator-passing inputs and an email not yet in
the registry, `signup` then `login` (both with a succeeding storage write)
both succeed and leave the session user equal to `{name, email, password}`. -/
theorem signup_login_round_trip (st : AuthState) (n e p : String)
    (hn : validateRequired n = true) (he : validateRequired e = true)
    (hp : validateRequired p = true) (hef : validateEmail e = true)
    (hpl : validatePassword p = true)
    (habs : ∀ u ∈ st.users, u.email ≠ e) :
    (signup st n e p true).1 = Except.ok () ∧
    (login (signup st n e p true).2 e p true).1 = Except.ok () ∧
    (login (signup st n e p true).2 e p true).2.user =
      some { name := n, email := e, password := p } := by
  have hfind : (st.users.find? fun u => u.email == e) = none :=
    List.find?_eq_none.mpr fun u hu => by simp [habs u hu]
  have hsig : signup st n e p true =
      (Except.ok (),
        { st with users := st.users ++ [{ name := n, email := e, password := p }] }) := by
    unfold signup
    simp only [hn, he, hp, hef, hpl, hfind]
    simp
  have hfind2 : ((st.users ++ [({ name := n, email := e, password := p } : User)]).find?
      fun u => u.email == e) = some { name := n, email := e, password := p } := by
    rw [List.find?_append, hfind]
    simp [List.find?]
  have hlogin :
      login { st with users := st.users ++ [{ name := n, email := e, password := p }] } e p true =
        (Except.ok (),
          { user := some { name := n, email := e, password := p },
            users := st.users ++ [{ name := n, email := e, password := p }],
            isLoading := st.isLoading }) := by
    unfold login
    simp only [he, hp, hef]
    simp only [hfind2]
    simp
  refine ⟨by rw [hsig], ?_, ?_⟩
  · rw [hsig, hlogin]
  · rw [hsig, hlogin]

/-- C1 witness: the round trip at `("Ann", "ann@x.com", "secret1")` from the
empty registry. -/
theorem signup_login_round_trip_witness :
    (signup initialState "Ann" "ann@x.com" "secret1" true).1 = Except.ok () ∧
    (login (signup initialState "Ann" "ann@x.com" "secret1" true).2
      "ann@x.com" "secret1" true).1 = Except.ok () ∧
    (login (signup initialState "Ann" "ann@x.com" "secret1" true).2
      "ann@x.com" "secret1" true).2.user =
      some { name := "Ann", email := "ann@x.com", password := "secret1" } :=
  signup_login_round_trip initialState "Ann" "ann@x.com" "secret1"
    (by decide) (by decide) (by decide) (by decide) (by decide)
    (by intro u hu; exact absurd hu (List.not_mem_nil u))

/-- C2: email uniqueness — any sequence of operations preserves
pairwise-distinct registry emails; a succeeding signup grows the registry by
exactly one entry; a signup whose email is already present leaves its size
unchanged. -/
theorem registry_email_uniqueness :
    (∀ (st : AuthState) (ops : List Op), (st.users.map User.email).Nodup →
      ((runOps st ops).users.map User.email).Nodup) ∧
    (∀ (st : AuthState) (n e p : String), (signup st n e p true).1 = Except.ok () →
      (signup st n e p true).2.users.length = st.users.length + 1) ∧
    (∀ (st : AuthState) (n e p : String) (ok : Bool), (∃ u ∈ st.users, u.email = e) →
      (signup st n e p ok).2.users.length = st.users.length) := by
  refine ⟨?_, ?_, ?_⟩
  · intro st ops
    induction ops generalizing st with
    | nil => intro h; exact h
    | cons op rest ih =>
      intro h
      have hstep := applyOp_nodup st op h
      have := ih (applyOp st op) hstep
      simpa [runOps] using this
  · intro st n e p hok
    unfold signup at hok ⊢
    split_ifs at hok ⊢
    simp_all
  · intro st n e p ok hmem
    rcases hmem with ⟨u, hu, hue⟩
    have hsome : (st.users.find? fun v => v.email == e).isSome = true :=
      List.find?_isSome.mpr ⟨u, hu, by simp [hue]⟩
    unfold signup
    split_ifs <;> simp_all

/-- C2 witness: one signup from the empty registry keeps emails distinct and
grows the registry to one entry; a duplicate-email signup keeps it at one. -/
theorem registry_email_uniqueness_witness :
    ((runOps initialState [Op.sig "Ann" "ann@x.com" "secret1" true]).users.map
      User.email).Nodup ∧
    (signup initialState "Ann" "ann@x.com" "secret1" true).2.users.length =
      initialState.users.length + 1 ∧
    (signup { user := none,
              users := [{ name := "Ann", email := "ann@x.com", password := "secret1" }],
              isLoading := false } "Bob" "ann@x.com" "secret2" true).2.users.length =
      ({ user := none,
         users := [{ name := "Ann", email := "ann@x.com", password := "secret1" }],
         isLoading := false } : AuthState).users.length :=
  ⟨registry_email_uniqueness.1 initialState [Op.sig "Ann" "ann@x.com" "secret1" true]
      (by simp [initialState]),
   registry_email_uniqueness.2.1 initialState "Ann" "ann@x.com" "secret1" (by rfl),
   registry_email_uniqueness.2.2 _ "Bob" "ann@x.com" "secret2" true
      ⟨{ name := "Ann", email := "ann@x.com", password := "secret1" },
        List.mem_singleton_self _, rfl⟩⟩

/-- C5 counterexample: with `"ann@x.com"` already registered, a second signup
with that email but a blank name fails with the name error, not the
duplicate-email error. -/
theorem idempotent_rejection_counterexample :
    (signup annState "" "ann@x.com" "secret2" true).1 =
      Except.error AuthError.nameRequired ∧
    (signup annState "" "ann@x.com" "secret2" true).1 ≠
      Except.error AuthError.emailAlreadyRegistered := by
  constructor
  · rfl
  · intro h
    have h1 : (signup annState "" "ann@x.com" "secret2" true).1 =
        Except.error AuthError.nameRequired := rfl
    rw [h1] at h
    injection h with h2
    exact absurd h2 (by decide)

/-- C5 (amended): a signup whose email is already registered fails with the
duplicate-email error, for all name and password values that pass their own
validation checks. -/
theorem duplicate_email_rejected (st : AuthState) (n e p : String) (ok : Bool)
    (hn : validateRequired n = true) (he : validateRequired e = true)
    (hp : validateRequired p = true) (hef : validateEmail e = true)
    (hpl : validatePassword p = true) (hmem : ∃ u ∈ st.users, u.email = e) :
    (signup st n e p ok).1 = Except.error AuthError.emailAlreadyRegistered := by
  rcases hmem with ⟨u, hu, hue⟩
  have hsome : (st.users.find? fun v => v.email == e).isSome = true :=
    List.find?_isSome.mpr ⟨u, hu, by simp [hue]⟩
  unfold signup
  simp only [hn, he, hp, hef, hpl, hsome]
  simp

/-- C5 witness: a duplicate signup with different valid name and password at
a concrete registry. -/
theorem duplicate_email_rejected_witness :
    (signup annState "Bob" "ann@x.com" "other99" true).1 =
      Except.error AuthError.emailAlreadyRegistered :=
  duplicate_email_rejected annState "Bob" "ann@x.com" "other99" true
    (by decide) (by decide) (by decide) (by decide) (by decide)
    ⟨{ name := "Ann", email := "ann@x.com", password := "secret1" },
      List.mem_singleton_self _, rfl⟩

/-- C6 counterexample: with only `"ann@x.com"` registered, logging in with
the unregistered email `"nope"` fails with the email-format error, not with
`InvalidCredentials`. -/
theorem non_enumeration_counterexample :
    (login annState "nope" "whatever" true).1 =
      Except.error AuthError.invalidEmailFormat ∧
    (login annState "nope" "whatever" true).1 ≠
      Except.error AuthError.invalidCredentials := by
  constructor
  · rfl
  · intro h
    have h1 : (login annState "nope" "whatever" true).1 =
        Except.error AuthError.invalidEmailFormat := rfl
    rw [h1] at h
    injection h with h2
    exact absurd h2 (by decide)

/-- C6 (amended): when the email passes the required and format checks and
the password passes the required check, login with an unregistered email and
login with a registered email but a wrong stored password both fail with the
identical `InvalidCredentials` error. -/
theorem login_non_enumeration (st : AuthState) (e p : String) (ok : Bool)
    (he : validateRequired e = true) (hp : validateRequired p = true)
    (hef : validateEmail e = true) :
    ((∀ u ∈ st.users, u.email ≠ e) →
      (login st e p ok).1 = Except.error AuthError.invalidCredentials) ∧
    (∀ u, (st.users.find? fun v => v.email == e) = some u → u.password ≠ p →
      (login st e p ok).1 = Except.error AuthError.invalidCredentials) := by
  constructor
  · intro habs
    have hfind : (st.users.find? fun v => v.email == e) = none :=
      List.find?_eq_none.mpr fun u hu => by simp [habs u hu]
    unfold login
    simp only [he, hp, hef, hfind]
    simp
  · intro u hfind hne
    unfold login
    simp only [he, hp, hef, hfind]
    simp [hne]

/-- C6 witness: an unregistered email and a wrong password against the same
concrete one-user registry both give `InvalidCredentials`. -/
theorem login_non_enumeration_witness :
    (login annState "bob@x.com" "secret1" true).1 =
      Except.error AuthError.invalidCredentials ∧
    (login annState "ann@x.com" "secret2" true).1 =
      Except.error AuthError.invalidCredentials := by
  constructor
  · refine (login_non_enumeration annState "bob@x.com" "secret1" true
      (by decide) (by decide) (by decide)).1 ?_
    intro u hu
    simp [annState] at hu
    rw [hu]
    decide
  · refine (login_non_enumeration annState "ann@x.com" "secret2" true
      (by decide) (by decide) (by decide)).2
      { name := "Ann", email := "ann@x.com", password := "secret1" } ?_ ?_
    · rfl
    · decide

/-- C8: no rollback on persistence failure — when the storage write fails,
the operation reports the persistence error yet the in-memory change stays:
a failed signup save keeps the appended user, a failed login save keeps the
session set, a failed logout removal keeps the session cleared. -/
theorem no_rollback_on_persistence_failure :
    (∀ (st : AuthState) (n e p : String),
      validateRequired n = true → validateRequired e = true →
      validateRequired p = true → validateEmail e = true →
      validatePassword p = true → (∀ u ∈ st.users, u.email ≠ e) →
      (signup st n e p false).1 = Except.error AuthError.persistenceFailure ∧
      (signup st n e p false).2.users =
        st.users ++ [{ name := n, email := e, password := p }]) ∧
    (∀ (st : AuthState) (e p : String) (u : User),
      validateRequired e = true → validateRequired p = true →
      validateEmail e = true →
      (st.users.find? fun v => v.email == e) = some u → u.password = p →
      (login st e p false).1 = Except.error AuthError.persistenceFailure ∧
      (login st e p false).2.user = some u) ∧
    (∀ st : AuthState,
      (logout st false).1 = Except.error AuthError.persistenceFailure ∧
      (logout st false).2.user = none) := by
  refine ⟨?_, ?_, ?_⟩
  · intro st n e p hn he hp hef hpl habs
    have hfind : (st.users.find? fun u => u.email == e) = none :=
      List.find?_eq_none.mpr fun u hu => by simp [habs u hu]
    unfold signup
    simp only [hn, he, hp, hef, hpl, hfind]
    simp
  · intro st e p u he hp hef hfind hpw
    unfold login
    simp only [he, hp, hef, hfind]
    simp [hpw]
  · intro st
    unfold logout
    simp

/-- C8 witness: the three persistence-failure outcomes at concrete inputs. -/
theorem no_rollback_on_persistence_failure_witness :
    ((signup initialState "Ann" "ann@x.com" "secret1" false).1 =
        Except.error AuthError.persistenceFailure ∧
      (signup initialState "Ann" "ann@x.com" "secret1" false).2.users =
        initialState.users ++
          [{ name := "Ann", email := "ann@x.com", password := "secret1" }]) ∧
    ((login annState "ann@x.com" "secret1" false).1 =
        Except.error AuthError.persistenceFailure ∧
      (login annState "ann@x.com" "secret1" false).2.user =
        some { name := "Ann", email := "ann@x.com", password := "secret1" }) ∧
    ((logout annState false).1 = Except.error AuthError.persistenceFailure ∧
      (logout annState false).2.user = none) :=
  ⟨no_rollback_on_persistence_failure.1 initialState "Ann" "ann@x.com" "secret1"
      (by decide) (by decide) (by decide) (by decide) (by decide)
      (fun u hu => absurd hu (List.not_mem_nil u)),
   no_rollback_on_persistence_failure.2.1 annState "ann@x.com" "secret1"
      { name := "Ann", email := "ann@x.com", password := "secret1" }
      (by decide) (by decide) (by decide) rfl rfl,
   no_rollback_on_persistence_failure.2.2 annState⟩

/-- C9: graceful startup — whatever the two storage reads return, loading
ends with `isLoading = false`; a failed or absent session read leaves the
session user absent, and a failed or absent registry read leaves the
registry empty. -/
theorem graceful_startup_load (userRead : ReadResult User)
    (usersRead : ReadResult (List User)) :
    (loadStoredAuth initialState userRead usersRead).isLoading = false ∧
    ((∀ u, userRead ≠ ReadResult.ok u) →
      (loadStoredAuth initialState userRead usersRead).user = none) ∧
    ((∀ l, usersRead ≠ ReadResult.ok l) →
      (loadStoredAuth initialState userRead usersRead).users = []) := by
  cases userRead <;> cases usersRead <;>
    refine ⟨rfl, fun h => ?_, fun h2 => ?_⟩ <;>
      first
        | rfl
        | exact absurd rfl (h _)
        | exact absurd rfl (h2 _)

/-- C9 witness: both reads failing still yields a ready, empty, signed-out
state. -/
theorem graceful_startup_load_witness :
    (loadStoredAuth initialState ReadResult.failure ReadResult.failure).isLoading = false ∧
    (loadStoredAuth initialState ReadResult.failure ReadResult.failure).user = none ∧
    (loadStoredAuth initialState ReadResult.failure ReadResult.failure).users = [] :=
  ⟨(graceful_startup_load ReadResult.failure ReadResult.failure).1,
   (graceful_startup_load ReadResult.failure ReadResult.failure).2.1
      (fun _ h => ReadResult.noConfusion h),
   (graceful_startup_load ReadResult.failure ReadResult.failure).2.2
      (fun _ h => ReadResult.noConfusion h)⟩

/-- C10: atomicity of validation failures — whenever `signup` or `login`
fails with any error other than the persistence error, the whole in-memory
state (session user and registry alike) is exactly what it was before the
call. -/
theorem validation_failure_atomicity :
    (∀ (st : AuthState) (n e p : String) (ok : Bool) (err : AuthError),
      err ≠ AuthError.persistenceFailure →
      (signup st n e p ok).1 = Except.error err → (signup st n e p ok).2 = st) ∧
    (∀ (st : AuthState) (e p : String) (ok : Bool) (err : AuthError),
      err ≠ AuthError.persistenceFailure →
      (login st e p ok).1 = Except.error err → (login st e p ok).2 = st) := by
  constructor
  · intro st n e p ok err hne herr
    unfold signup at herr ⊢
    split_ifs at herr ⊢ <;> simp_all
  · intro st e p ok err hne herr
    unfold login at herr ⊢
    rcases hf : st.users.find? fun v => v.email == e with _ | u <;>
      rw [hf] at herr ⊢ <;> split_ifs at herr ⊢ <;>
        first
          | (by_cases hpw : u.password = p <;> simp_all)
          | simp_all

/-- C10 witness: a failing signup (blank name) and a failing login (wrong
password) both leave the concrete state untouched. -/
theorem validation_failure_atomicity_witness :
    (signup annState "" "ann@x.com" "secret2" true).2 = annState ∧
    (login annState "ann@x.com" "wrongpw" true).2 = annState :=
  ⟨validation_failure_atomicity.1 annState "" "ann@x.com" "secret2" true
      AuthError.nameRequired (by decide) rfl,
   validation_failure_atomicity.2 annState "ann@x.com" "wrongpw" true
      AuthError.invalidCredentials (by decide) rfl⟩

end KloudiousAuth
